import Mathlib

/-!
Verification of the configuration-resolution layer of a local backend
service (crates/local_backend/src/config.rs).  The source file defines a
LocalConfig record populated from external input (with clap defaults) and
pure derivation methods: bind addresses, origin and site URLs, the storage
directory, and a fallible key-broker construction built on an external
secret-validation collaborator.
-/

namespace ConvexConfig

/-- An IPv4 address, four octets as in std::net::Ipv4Addr. -/
structure Ipv4Addr where
  o0 : Nat
  o1 : Nat
  o2 : Nat
  o3 : Nat
deriving DecidableEq, Repr

/-- Mirrors Ipv4Addr::octets, which returns the four octets unchanged. -/
def Ipv4Addr.octets (ip : Ipv4Addr) : Nat × Nat × Nat × Nat :=
  (ip.o0, ip.o1, ip.o2, ip.o3)

/-- Mirrors std::path::PathBuf as used here: From<String> wraps the string
with no normalization, existence check or creation. -/
structure PathBuf where
  path : String
deriving DecidableEq, Repr

/-- The LocalConfig struct of config.rs, field for field.  String-like
newtypes of the source (ConvexOrigin, ConvexSite, Url) are carried as
strings, since config.rs only clones and defaults them. -/
structure LocalConfig where
  db_spec : String
  interface : Ipv4Addr
  port : Nat
  site_proxy_port : Nat
  convex_origin : Option String
  convex_site : Option String
  convex_http_proxy : Option String
  instance_name : Option String
  instance_secret : Option String
  sentry_identifier : Option String
  local_storage : String
deriving DecidableEq, Repr

/-- Modelled from the spec: the keybroker collaborator crate (InstanceSecret,
KeyBroker, DEV_INSTANCE_NAME, DEV_SECRET) is outside the visible source.
The spec treats secret validation as an opaque parse function whose rules it
does not define, and the development name and secret as fixed named constants
owned by the identity collaborator, to be passed explicitly as fallback
parameters; this environment record carries exactly those three pieces. -/
structure KeybrokerEnv where
  DEV_INSTANCE_NAME : String
  DEV_SECRET : String
  isValidSecret : String → Bool

/-- A validated secret, opaque to this core; it remembers only the string it
was validated from. -/
structure InstanceSecret where
  raw : String
deriving DecidableEq, Repr

/-- The error taxonomy of this core: the only error is InvalidSecret,
carrying the offending input for diagnostics. -/
inductive ConfigError where
  | invalidSecret (badInput : String)
deriving DecidableEq, Repr

/-- Modelled from the spec: InstanceSecret::try_from of the keybroker crate,
an opaque parse that yields a validated secret or the InvalidSecret error. -/
def InstanceSecret.tryFrom (env : KeybrokerEnv) (s : String) :
    Except ConfigError InstanceSecret :=
  if env.isValidSecret s then Except.ok ⟨s⟩
  else Except.error (ConfigError.invalidSecret s)

/-- Modelled from the spec: KeyBroker owns the validated (name, secret) pair;
its construction binds the pair and, per the spec, introduces no failure of
its own (InvalidSecret is the single failure mode of the whole core). -/
structure KeyBroker where
  instanceName : String
  secret : InstanceSecret
deriving DecidableEq, Repr

/-- Modelled from the spec: KeyBroker::new binds a name to a validated
secret. -/
def KeyBroker.new (name : String) (s : InstanceSecret) : KeyBroker :=
  ⟨name, s⟩

/-- LocalConfig::http_bind_address. -/
def LocalConfig.http_bind_address (c : LocalConfig) :
    (Nat × Nat × Nat × Nat) × Nat :=
  (c.interface.octets, c.port)

/-- LocalConfig::site_bind_address. -/
def LocalConfig.site_bind_address (c : LocalConfig) :
    Option ((Nat × Nat × Nat × Nat) × Nat) :=
  some (c.interface.octets, c.site_proxy_port)

/-- LocalConfig::convex_origin_url: the supplied origin, or the local
fallback built from the port. -/
def LocalConfig.convex_origin_url (c : LocalConfig) : String :=
  c.convex_origin.getD ("http://127.0.0.1:" ++ toString c.port)

/-- LocalConfig::convex_site_url: the supplied site, or the local fallback
built from the site proxy port. -/
def LocalConfig.convex_site_url (c : LocalConfig) : String :=
  c.convex_site.getD ("http://127.0.0.1:" ++ toString c.site_proxy_port)

/-- LocalConfig::name: the supplied instance name, or DEV_INSTANCE_NAME. -/
def LocalConfig.name (env : KeybrokerEnv) (c : LocalConfig) : String :=
  c.instance_name.getD env.DEV_INSTANCE_NAME

/-- LocalConfig::secret: validate the supplied instance secret, or
DEV_SECRET when absent. -/
def LocalConfig.secret (env : KeybrokerEnv) (c : LocalConfig) :
    Except ConfigError InstanceSecret :=
  InstanceSecret.tryFrom env (c.instance_secret.getD env.DEV_SECRET)

/-- LocalConfig::key_broker: KeyBroker::new(name, secret?), propagating the
secret-validation failure. -/
def LocalConfig.key_broker (env : KeybrokerEnv) (c : LocalConfig) :
    Except ConfigError KeyBroker :=
  (c.secret env).map (fun s => KeyBroker.new (c.name env) s)

/-- LocalConfig::storage_dir: local_storage turned into a PathBuf. -/
def LocalConfig.storage_dir (c : LocalConfig) : PathBuf :=
  ⟨c.local_storage⟩

/-- The as-parsed external input before clap applies default values: every
defaulted field may be absent. -/
structure RawFields where
  db_spec : Option String
  interface : Option Ipv4Addr
  port : Option Nat
  site_proxy_port : Option Nat
  convex_origin : Option String
  convex_site : Option String
  convex_http_proxy : Option String
  instance_name : Option String
  instance_secret : Option String
  sentry_identifier : Option String
  local_storage : Option String

/-- The default values declared on LocalConfig via clap default_value
attributes, applied to any field the external input left absent. -/
def applyDefaults (r : RawFields) : LocalConfig where
  db_spec := r.db_spec.getD "convex_local_backend.sqlite3"
  interface := r.interface.getD ⟨0, 0, 0, 0⟩
  port := r.port.getD 3210
  site_proxy_port := r.site_proxy_port.getD 3211
  convex_origin := r.convex_origin
  convex_site := r.convex_site
  convex_http_proxy := r.convex_http_proxy
  instance_name := r.instance_name
  instance_secret := r.instance_secret
  sentry_identifier := r.sentry_identifier
  local_storage := r.local_storage.getD "convex_local_storage"

/-- Mirrors how the Debug impl renders an optional string field. -/
def fmtOptString : Option String → String
  | none => "None"
  | some s => "Some(\"" ++ s ++ "\")"

/-- The custom Debug impl of LocalConfig: a debug_struct named Config with
exactly the fields convex_origin, convex_site and instance_name. -/
def LocalConfig.debugFmt (c : LocalConfig) : String :=
  "Config \x7b convex_origin: " ++ fmtOptString c.convex_origin ++
    ", convex_site: " ++ fmtOptString c.convex_site ++
    ", instance_name: " ++ fmtOptString c.instance_name ++ " \x7d"

/-- A fully defaulted configuration, used as a concrete evaluation point. -/
def cfgDev : LocalConfig where
  db_spec := "convex_local_backend.sqlite3"
  interface := ⟨0, 0, 0, 0⟩
  port := 3210
  site_proxy_port := 3211
  convex_origin := none
  convex_site := none
  convex_http_proxy := none
  instance_name := none
  instance_secret := none
  sentry_identifier := none
  local_storage := "convex_local_storage"

/-- A concrete environment whose validator accepts every string. -/
def envAccept : KeybrokerEnv where
  DEV_INSTANCE_NAME := "carnitas"
  DEV_SECRET := "devsecret"
  isValidSecret := fun _ => true

/-- A concrete environment whose validator rejects every string. -/
def envReject : KeybrokerEnv where
  DEV_INSTANCE_NAME := "carnitas"
  DEV_SECRET := "devsecret"
  isValidSecret := fun _ => false

/-- C1: for every LocalConfig, if convex_origin is absent then
convex_origin_url is the string http://127.0.0.1:{port} built from the
config's port, and if convex_origin is present then convex_origin_url is the
supplied origin verbatim; resolving twice yields the identical value. -/
theorem convex_origin_url_spec (c : LocalConfig) :
    (c.convex_origin = none →
      c.convex_origin_url = "http://127.0.0.1:" ++ toString c.port) ∧
    (∀ o, c.convex_origin = some o → c.convex_origin_url = o) ∧
    c.convex_origin_url = c.convex_origin_url := by
  refine ⟨fun h => ?_, fun o h => ?_, rfl⟩ <;>
    simp [LocalConfig.convex_origin_url, h]

/-- C1 witness: at the fully defaulted config the fallback branch yields
http://127.0.0.1:3210, and with an explicit origin it is returned verbatim. -/
theorem convex_origin_url_spec_witness :
    cfgDev.convex_origin_url = "http://127.0.0.1:3210" ∧
    ({ cfgDev with convex_origin := some "https://example.com" }
      : LocalConfig).convex_origin_url = "https://example.com" :=
  ⟨by rw [(convex_origin_url_spec cfgDev).1 rfl]; decide,
   (convex_origin_url_spec
      { cfgDev with convex_origin := some "https://example.com" }).2.1
     "https://example.com" rfl⟩

/-- C2: when the effective secret string (instance_secret if present, else
DEV_SECRET) fails validation, key_broker fails with the InvalidSecret error
carrying that string and yields no KeyBroker.  All other operations of the
core are total Lean functions into plain value types, so key_broker is the
only derivation that can fail. -/
theorem key_broker_invalid_secret (env : KeybrokerEnv) (c : LocalConfig)
    (h : env.isValidSecret (c.instance_secret.getD env.DEV_SECRET) = false) :
    c.key_broker env = Except.error
        (ConfigError.invalidSecret (c.instance_secret.getD env.DEV_SECRET)) ∧
    ∀ kb, ¬ c.key_broker env = Except.ok kb := by
  have hs : c.secret env = Except.error
      (ConfigError.invalidSecret (c.instance_secret.getD env.DEV_SECRET)) := by
    simp [LocalConfig.secret, InstanceSecret.tryFrom, h]
  refine ⟨?_, ?_⟩
  · simp [LocalConfig.key_broker, hs, Except.map]
  · intro kb hkb
    simp [LocalConfig.key_broker, hs, Except.map] at hkb

/-- C2 witness: under the rejecting validator, the defaulted config's
key_broker fails with InvalidSecret on the development secret. -/
theorem key_broker_invalid_secret_witness :
    cfgDev.key_broker envReject =
      Except.error (ConfigError.invalidSecret "devsecret") :=
  (key_broker_invalid_secret envReject cfgDev rfl).1

/-- C3: when instance_name is present but instance_secret is absent,
key_broker does not reject the unpaired input: it succeeds (whenever the
development secret validates) with the explicit name paired with the
development default secret. -/
theorem key_broker_unpaired_name (env : KeybrokerEnv) (c : LocalConfig)
    (n : String) (hn : c.instance_name = some n)
    (hs : c.instance_secret = none)
    (hdev : env.isValidSecret env.DEV_SECRET = true) :
    c.key_broker env = Except.ok (KeyBroker.new n ⟨env.DEV_SECRET⟩) := by
  simp [LocalConfig.key_broker, LocalConfig.secret, LocalConfig.name,
    InstanceSecret.tryFrom, KeyBroker.new, hn, hs, hdev, Except.map]

/-- C3 witness: with an explicit name acme and no secret, the accepting
environment yields a broker pairing acme with the development secret. -/
theorem key_broker_unpaired_name_witness :
    ({ cfgDev with instance_name := some "acme" } : LocalConfig).key_broker
        envAccept =
      Except.ok (KeyBroker.new "acme" ⟨"devsecret"⟩) :=
  key_broker_unpaired_name envAccept
    { cfgDev with instance_name := some "acme" } "acme" rfl rfl rfl

/-- C4: http_bind_address always succeeds and returns exactly the pair of
the interface's octets and the port, unchanged. -/
theorem http_bind_address_spec (c : LocalConfig) :
    c.http_bind_address = (c.interface.octets, c.port) := rfl

/-- C5: when instance_name and instance_secret are both absent, key_broker
succeeds (the development secret validating) with the development instance
name and the validated development secret; the secret derivation itself
yields that validated secret. -/
theorem key_broker_dev_defaults (env : KeybrokerEnv) (c : LocalConfig)
    (hn : c.instance_name = none) (hs : c.instance_secret = none)
    (hdev : env.isValidSecret env.DEV_SECRET = true) :
    c.key_broker env =
      Except.ok (KeyBroker.new env.DEV_INSTANCE_NAME ⟨env.DEV_SECRET⟩) ∧
    c.secret env = Except.ok ⟨env.DEV_SECRET⟩ := by
  have hsec : c.secret env = Except.ok ⟨env.DEV_SECRET⟩ := by
    simp [LocalConfig.secret, InstanceSecret.tryFrom, hs, hdev]
  refine ⟨?_, hsec⟩
  simp [LocalConfig.key_broker, LocalConfig.name, hsec, hn, KeyBroker.new,
    Except.map]

/-- C5 witness: the fully defaulted config under the accepting environment
yields the development name and secret. -/
theorem key_broker_dev_defaults_witness :
    cfgDev.key_broker envAccept =
      Except.ok (KeyBroker.new "carnitas" ⟨"devsecret"⟩) :=
  (key_broker_dev_defaults envAccept cfgDev rfl rfl rfl).1

/-- C6: for every LocalConfig, convex_site_url is the supplied site verbatim
when present, and http://127.0.0.1:{site_proxy_port} when absent. -/
theorem convex_site_url_spec (c : LocalConfig) :
    (c.convex_site = none →
      c.convex_site_url = "http://127.0.0.1:" ++ toString c.site_proxy_port) ∧
    (∀ s, c.convex_site = some s → c.convex_site_url = s) := by
  refine ⟨fun h => ?_, fun s h => ?_⟩ <;>
    simp [LocalConfig.convex_site_url, h]

/-- C6 witness: at the defaulted config the fallback is
http://127.0.0.1:3211, and an explicit site is returned verbatim. -/
theorem convex_site_url_spec_witness :
    cfgDev.convex_site_url = "http://127.0.0.1:3211" ∧
    ({ cfgDev with convex_site := some "https://site.example" }
      : LocalConfig).convex_site_url = "https://site.example" :=
  ⟨by rw [(convex_site_url_spec cfgDev).1 rfl]; decide,
   (convex_site_url_spec
      { cfgDev with convex_site := some "https://site.example" }).2
     "https://site.example" rfl⟩

/-- C7: site_bind_address always returns a present value, namely the pair
of the interface's octets and the site proxy port. -/
theorem site_bind_address_spec (c : LocalConfig) :
    c.site_bind_address = some (c.interface.octets, c.site_proxy_port) := rfl

/-- C8: storage_dir returns exactly the local_storage string wrapped as a
path, with no normalization, existence check or creation. -/
theorem storage_dir_spec (c : LocalConfig) :
    c.storage_dir = PathBuf.mk c.local_storage := rfl

/-- C9: every field of the external input that is absent takes exactly its
declared default: db_spec convex_local_backend.sqlite3, interface 0.0.0.0,
port 3210, site_proxy_port 3211, local_storage convex_local_storage. -/
theorem defaults_spec (r : RawFields) :
    (r.db_spec = none →
      (applyDefaults r).db_spec = "convex_local_backend.sqlite3") ∧
    (r.interface = none → (applyDefaults r).interface = ⟨0, 0, 0, 0⟩) ∧
    (r.port = none → (applyDefaults r).port = 3210) ∧
    (r.site_proxy_port = none → (applyDefaults r).site_proxy_port = 3211) ∧
    (r.local_storage = none →
      (applyDefaults r).local_storage = "convex_local_storage") := by
  refine ⟨fun h => ?_, fun h => ?_, fun h => ?_, fun h => ?_, fun h => ?_⟩ <;>
    simp [applyDefaults, h]

/-- C9 witness: applying the defaults to the all-absent input yields each of
the five declared default values. -/
theorem defaults_spec_witness :
    (applyDefaults ⟨none, none, none, none, none, none, none, none, none,
        none, none⟩).db_spec = "convex_local_backend.sqlite3" ∧
    (applyDefaults ⟨none, none, none, none, none, none, none, none, none,
        none, none⟩).interface = ⟨0, 0, 0, 0⟩ ∧
    (applyDefaults ⟨none, none, none, none, none, none, none, none, none,
        none, none⟩).port = 3210 ∧
    (applyDefaults ⟨none, none, none, none, none, none, none, none, none,
        none, none⟩).site_proxy_port = 3211 ∧
    (applyDefaults ⟨none, none, none, none, none, none, none, none, none,
        none, none⟩).local_storage = "convex_local_storage" := by
  have h := defaults_spec ⟨none, none, none, none, none, none, none, none,
    none, none, none⟩
  exact ⟨h.1 rfl, h.2.1 rfl, h.2.2.1 rfl, h.2.2.2.1 rfl, h.2.2.2.2 rfl⟩

/-- C10: the Debug rendering of LocalConfig is independent of
instance_secret: overwriting that field with any value leaves the rendering
unchanged, since only convex_origin, convex_site and instance_name are
printed. -/
theorem debugFmt_secret_independent (c : LocalConfig) (s : Option String) :
    ({ c with instance_secret := s } : LocalConfig).debugFmt = c.debugFmt :=
  rfl

end ConvexConfig
